import Mathlib

/-!
Verification of the IMDB 5000 dashboard's filter-and-aggregate core
(`src/app.py`) against its natural-language specification.

The embedding models:
* the loader's fill rules (app.py lines 45-52),
* the sidebar year-bound derivation (lines 74-78),
* the filter pipeline with its try/except fail-open recovery (lines 109-133),
* the aggregations: mean IMDB score (lines 140-141), median ROI (lines
  144-152), genre explosion with top-10 retention (lines 186-191), and the
  per-year means (lines 209-211).

Numbers are rationals; pandas NaN results ("Нет данных" display) are the
`none` case of `Option`.  pandas `str.contains` compiles its pattern as a
regular expression; the embedding covers selections and queries made of
literal text (no regex metacharacters), for which the `'|'.join`ed pattern
matches exactly the rows containing some selected name case-insensitively,
and the empty pattern matches every row.  A pattern containing a
metacharacter (for instance an unmatched parenthesis, which raises
`re.error` in the source) is modelled as the pattern-error case.
-/

namespace IMDB

/-- One parsed CSV row before the loader's `fillna` calls: every modelled
column may be missing.  Columns other than the modelled ones are passed
through opaquely and are not represented. -/
structure RawRow where
  movie_title : Option String
  genres : Option String
  actor_1_name : Option String
  actor_2_name : Option String
  actor_3_name : Option String
  title_year : Option Int
  budget : Option ℚ
  gross : Option ℚ
  imdb_score : Option ℚ
deriving DecidableEq

/-- One row of the loaded dataframe, after the loader's fill rules
(app.py lines 45-52).  `movie_title` is not filled by the loader and stays
optional; the filled columns are non-null by construction. -/
structure Row where
  movie_title : Option String
  genres : String
  actor_1_name : String
  actor_2_name : String
  actor_3_name : String
  title_year : Int
  budget : ℚ
  gross : ℚ
  imdb_score : ℚ
deriving DecidableEq

abbrev Table := List Row

/-- The loader's per-column default fills (app.py lines 45-52):
`genres` and the three actor names get `"Unknown"`, `title_year`, `budget`,
`gross` and `imdb_score` get `0`. -/
def fillRow (r : RawRow) : Row where
  movie_title := r.movie_title
  genres := r.genres.getD "Unknown"
  actor_1_name := r.actor_1_name.getD "Unknown"
  actor_2_name := r.actor_2_name.getD "Unknown"
  actor_3_name := r.actor_3_name.getD "Unknown"
  title_year := r.title_year.getD 0
  budget := r.budget.getD 0
  gross := r.gross.getD 0
  imdb_score := r.imdb_score.getD 0

/-- `load_data` (app.py lines 36-56) on a successfully parsed file: the
fill rules applied to every row. -/
def load_data (raw : List RawRow) : Table :=
  raw.map fillRow

/-- ASCII lowercasing of one character: the restriction of Python's
Unicode case folding to the ASCII range. -/
def lowerChar (c : Char) : Char :=
  if 'A' ≤ c ∧ c ≤ 'Z' then Char.ofNat (c.toNat + 32) else c

/-- Case-insensitive substring test: the semantics of
`Series.str.contains(pat, case=False)` for a literal ASCII pattern over
ASCII text.  `case=False` is Unicode `IGNORECASE`; the embedding models
its ASCII fragment, and the theorems that depend on match semantics
restrict themselves to ASCII data accordingly. -/
def ciContains (hay pat : String) : Bool :=
  decide ((pat.data.map lowerChar) <:+: (hay.data.map lowerChar))

/-- Characters that are metacharacters of the regular-expression dialect
pandas compiles search patterns with, including the alternation operator
`'|'` that the genre filter's `'|'.join` relies on. -/
def reMeta : List Char :=
  ['\\', '.', '^', '$', '*', '+', '?', '(', ')', '[', ']', '\x7b', '\x7d', '|']

/-- A string that the regex engine treats as literal text: no name may
contain a metacharacter — in particular no `'|'`, which would smuggle an
extra alternation branch into the joined pattern. -/
def isLiteralStr (s : String) : Bool :=
  s.toList.all (fun c => !(reMeta.contains c))

/-- A string confined to the ASCII range, where `lowerChar` agrees with
Python's Unicode case folding. -/
def isAsciiStr (s : String) : Bool :=
  s.data.all (fun c => decide (c.toNat < 128))

/-- The sidebar widget state driving one filtering pass (app.py lines
71-107): the year slider's inclusive interval, the genre and actor
multiselect values, and the title search text. -/
structure FilterState where
  yearLo : Int
  yearHi : Int
  selected_genres : List String
  selected_actors : List String
  search_query : String
deriving DecidableEq

/-- The exception a filter step can raise (a `re.error` from an invalid
pattern is the concrete case the embedding models). -/
inductive FilterErr where
  | invalidPattern
deriving DecidableEq

instance {ε α : Type} [DecidableEq ε] [DecidableEq α] :
    DecidableEq (Except ε α) := fun a b =>
  match a, b with
  | .ok x, .ok y =>
    if h : x = y then .isTrue (congrArg Except.ok h)
    else .isFalse (fun q => h (Except.ok.inj q))
  | .ok _, .error _ => .isFalse (fun q => Except.noConfusion q)
  | .error _, .ok _ => .isFalse (fun q => Except.noConfusion q)
  | .error e, .error f =>
    if h : e = f then .isTrue (congrArg Except.error h)
    else .isFalse (fun q => h (Except.error.inj q))

/-- Row predicate of `title_year.between(lo, hi)` (app.py line 112):
inclusive on both ends. -/
def yearPred (lo hi : Int) (r : Row) : Bool :=
  decide (lo ≤ r.title_year) && decide (r.title_year ≤ hi)

/-- Row predicate of `genres.str.contains('|'.join(sel), case=False)` for a
selection of literal genre names (app.py line 116): the alternation matches
a row iff some selected name occurs case-insensitively, and the empty
selection joins to the empty pattern, which matches every row. -/
def genrePred (sel : List String) (r : Row) : Bool :=
  sel.isEmpty || sel.any (fun g => ciContains r.genres g)

/-- Row predicate of the three `isin(selected_actors)` tests (app.py lines
121-123): exact membership on any of the three actor columns. -/
def actorPred (sel : List String) (r : Row) : Bool :=
  sel.contains r.actor_1_name || sel.contains r.actor_2_name ||
    sel.contains r.actor_3_name

/-- Row predicate of `movie_title.str.contains(q, case=False, na=False)`
(app.py line 128): a missing title never matches (`na=False`). -/
def titlePred (q : String) (r : Row) : Bool :=
  match r.movie_title with
  | none => false
  | some s => ciContains s q

/-- Year-range filter step (app.py line 112); always succeeds. -/
def yearStep (lo hi : Int) (t : Table) : Except FilterErr Table :=
  .ok (t.filter (yearPred lo hi))

/-- Genre filter step (app.py lines 114-117): skipped when `'All'` is
selected; otherwise filters with the joined pattern, failing when the
pattern is not literal text. -/
def genreStep (sel : List String) (t : Table) : Except FilterErr Table :=
  match sel.contains "All", sel.all isLiteralStr with
  | true, _ => .ok t
  | false, true => .ok (t.filter (genrePred sel))
  | false, false => .error .invalidPattern

/-- Actor filter step (app.py lines 119-124): skipped when `'All'` is
selected; always succeeds otherwise. -/
def actorStep (sel : List String) (t : Table) : Except FilterErr Table :=
  match sel.contains "All" with
  | true => .ok t
  | false => .ok (t.filter (actorPred sel))

/-- Title search step (app.py lines 126-129): skipped when the query is
empty (`if search_query:`); fails on a non-literal pattern. -/
def titleStep (q : String) (t : Table) : Except FilterErr Table :=
  match q == "", isLiteralStr q with
  | true, _ => .ok t
  | false, true => .ok (t.filter (titlePred q))
  | false, false => .error .invalidPattern

/-- The filter pipeline inside the `try` block (app.py lines 110-129), in
source order: year range, genre, actor, title search; the first raising
step aborts the block. -/
def applyFilters (t : Table) (s : FilterState) : Except FilterErr Table :=
  match yearStep s.yearLo s.yearHi t with
  | .error e => .error e
  | .ok t1 =>
    match genreStep s.selected_genres t1 with
    | .error e => .error e
    | .ok t2 =>
      match actorStep s.selected_actors t2 with
      | .error e => .error e
      | .ok t3 => titleStep s.search_query t3

/-- `filtered_data` as delivered past the `try/except` (app.py lines
109-133): on any exception the unfiltered `df.copy()` is used. -/
def filtered_data (t : Table) (s : FilterState) : Table :=
  match applyFilters t s with
  | .ok r => r
  | .error _ => t

/-- The slider bounds derivation (app.py lines 74-78):
`int(df[df['title_year'] > 0]['title_year'].min())` and the matching max.
When no row has a positive year the min/max of the empty selection are NaN
and `int(NaN)` raises `ValueError`; that failure is the `none` case. -/
def year_bounds (t : Table) : Option (Int × Int) :=
  match ((t.map Row.title_year).filter (fun y => decide (0 < y))).min?,
        ((t.map Row.title_year).filter (fun y => decide (0 < y))).max? with
  | some lo, some hi => some (lo, hi)
  | _, _ => none

/-- The filter state with only the year range active: genre and actor
selections at their `['All']` defaults and an empty search query. -/
def rangeOnlyState (lo hi : Int) : FilterState :=
  ⟨lo, hi, ["All"], ["All"], ""⟩

/-- Arithmetic mean of a rational series, the value of `Series.mean()` on a
non-empty all-valid column.  (On the empty list this is `0/0 = 0`; callers
guard emptiness separately, as pandas returns NaN there.) -/
def meanQ (l : List ℚ) : ℚ :=
  l.sum / l.length

/-- `avg_score` (app.py lines 140-141): the mean of the `imdb_score`
column, with `none` for the NaN-of-an-empty-series case that the UI shows
as "Нет данных". -/
def avg_score (t : Table) : Option ℚ :=
  if t.isEmpty then none else some (meanQ (t.map Row.imdb_score))

/-- `Series.median()` on a non-empty series: sort ascending, take the
middle element, or the average of the two middle elements when the length
is even. -/
def median (l : List ℚ) : ℚ :=
  let s := l.insertionSort (fun a b => a ≤ b)
  if l.length % 2 = 1 then s.getD (l.length / 2) 0
  else (s.getD (l.length / 2 - 1) 0 + s.getD (l.length / 2) 0) / 2

/-- Validity condition of the ROI row selection (app.py line 145):
`(budget >= 1000) & (gross > 0)`. -/
def roiValid (r : Row) : Bool :=
  decide (1000 ≤ r.budget) && decide (0 < r.gross)

/-- The median-ROI metric (app.py lines 144-152): over the rows passing
`roiValid`, the median of `(gross - budget) / budget` times 100; `none`
("Нет данных") when no row qualifies. -/
def roi (t : Table) : Option ℚ :=
  let rd := t.filter roiValid
  if rd.isEmpty then none
  else some (median (rd.map (fun r => (r.gross - r.budget) / r.budget)) * 100)

/-- Helper of `splitGenres`: splits the remaining characters at `'|'`,
accumulating the current token in reverse. -/
def splitGenresAux : List Char → List Char → List String
  | [], cur => [String.mk cur.reverse]
  | c :: rest, cur =>
    if c = '|' then String.mk cur.reverse :: splitGenresAux rest []
    else splitGenresAux rest (c :: cur)

/-- The genre tokens of one row: the `|`-split of its genre string
(app.py line 188), with Python `split` semantics — the empty string yields
one empty token. -/
def splitGenres (g : String) : List String :=
  splitGenresAux g.data []

/-- The exploded `(genres, gross)` observations (app.py lines 187-189):
one pair per genre token of each row. -/
def explodeGenres (t : Table) : List (String × ℚ) :=
  (t.map (fun r => (splitGenres r.genres).map (fun g => (g, r.gross)))).flatten

/-- All genre tokens of the table, in exploded order. -/
def tokenList (t : Table) : List String :=
  (explodeGenres t).map Prod.fst

/-- Distinct elements in order of first occurrence, the index order of
`value_counts()` before sorting by count. -/
def firstOccs (l : List String) : List String :=
  l.foldl (fun acc g => if g ∈ acc then acc else acc ++ [g]) []

/-- `top_genres` (app.py line 190): `value_counts().head(10).index` —
the distinct tokens stably sorted by descending frequency (ties keep
first-occurrence order), truncated to the first ten. -/
def top_genres (t : Table) : List String :=
  ((firstOccs (tokenList t)).insertionSort
      (fun a b => (tokenList t).count b ≤ (tokenList t).count a)).take 10

/-- `genre_data` after the top-10 restriction (app.py lines 187-191): the
exploded observations whose genre token is among `top_genres`. -/
def genre_data (t : Table) : List (String × ℚ) :=
  (explodeGenres t).filter (fun p => (top_genres t).contains p.1)

/-- The rows of a given release year. -/
def rowsOfYear (t : Table) (y : Int) : Table :=
  t.filter (fun r => decide (r.title_year = y))

/-- One group of `groupby('title_year')[['budget','gross']].mean()`:
the year with the mean budget and mean gross of its rows. -/
def yearEntry (t : Table) (y : Int) : Int × ℚ × ℚ :=
  (y, meanQ ((rowsOfYear t y).map Row.budget),
      meanQ ((rowsOfYear t y).map Row.gross))

/-- `yearly_data` (app.py lines 209-211): group by `title_year` (groupby
sorts the distinct keys ascending), take per-group means of budget and
gross, then keep only the groups with `title_year > 0`. -/
def yearly_data (t : Table) : List (Int × ℚ × ℚ) :=
  ((((t.map Row.title_year).dedup).insertionSort
      (fun a b => a ≤ b)).map (yearEntry t)).filter
    (fun e => decide (0 < e.1))

/-- The genre predicate as the claim words it ("keep exactly the rows whose
genres string contains, as a case-insensitive substring, at least one of
the selected genre names"), stated for comparison with the source's
behaviour. -/
def genreKeepSpec (sel : List String) (t : Table) : Table :=
  t.filter (fun r => sel.any (fun g => ciContains r.genres g))

/-- The ROI summary as the claim words it (median of
`(gross - budget) / budget` as a percentage over exactly the rows with
`budget >= 1000`), stated for comparison with the source's behaviour. -/
def roiSpecClaim (t : Table) : Option ℚ :=
  if (t.filter (fun r => decide (1000 ≤ r.budget))).isEmpty then none
  else some (median ((t.filter (fun r => decide (1000 ≤ r.budget))).map
      (fun r => (r.gross - r.budget) / r.budget)) * 100)

/-! ### Concrete sample data for witnesses and counterexamples -/

/-- A 1999 action movie. -/
def sAction : Row :=
  ⟨some "Alpha", "Action|Drama", "X", "Y", "Z", 1999, 10, 20, 7⟩

/-- A movie whose release year is the `0` sentinel. -/
def sZero : Row :=
  ⟨some "Beta", "Comedy", "U", "V", "W", 0, 5, 6, 8⟩

/-- A movie with a negative release year. -/
def sNegYear : Row :=
  ⟨some "Gamma", "Drama", "X", "Y", "Z", -1, 5, 6, 8⟩

/-- A movie with a valid budget but zero gross. -/
def sGrossZero : Row :=
  ⟨some "Delta", "Drama", "X", "Y", "Z", 2000, 1000, 0, 5⟩

/-- A movie with a valid budget and positive gross. -/
def sGrossPos : Row :=
  ⟨some "Epsilon", "Drama", "X", "Y", "Z", 2001, 1000, 3000, 5⟩

/-- A movie with the zero-budget sentinel. -/
def sBudgetZero : Row :=
  ⟨some "Zeta", "Drama", "X", "Y", "Z", 2001, 0, 3000, 5⟩

/-- A raw CSV row with every modelled column missing. -/
def sRawEmpty : RawRow :=
  ⟨none, none, none, none, none, none, none, none, none⟩

/-- A raw CSV row with all columns present. -/
def sRawFull : RawRow :=
  ⟨some "Eta", some "Action", some "X", some "Y", some "Z", some 1999,
    some 10, some 20, some 7⟩

attribute [local semireducible] Rat.add Rat.sub Rat.mul Rat.inv

/-! ### Helper lemmas -/

/-- With genre and actor selections at `['All']` and an empty query, the
pipeline reduces to the year-range filter. -/
theorem filtered_rangeOnly (t : Table) (lo hi : Int) :
    filtered_data t (rangeOnlyState lo hi) = t.filter (yearPred lo hi) := rfl

/-- Unfolding of a successful `year_bounds` computation. -/
theorem year_bounds_eq_some {t : Table} {lo hi : Int}
    (h : year_bounds t = some (lo, hi)) :
    ((t.map Row.title_year).filter (fun y => decide (0 < y))).min? = some lo ∧
    ((t.map Row.title_year).filter (fun y => decide (0 < y))).max? = some hi := by
  unfold year_bounds at h
  cases hmin : ((t.map Row.title_year).filter (fun y => decide (0 < y))).min? with
  | none => rw [hmin] at h; simp at h
  | some a =>
    cases hmax : ((t.map Row.title_year).filter (fun y => decide (0 < y))).max? with
    | none => rw [hmin, hmax] at h; simp at h
    | some b =>
      rw [hmin, hmax] at h
      simp only [Option.some.injEq, Prod.mk.injEq] at h
      exact ⟨by rw [h.1], by rw [h.2]⟩

/-- Every positive `title_year` of the table lies between the derived
bounds. -/
theorem year_bounds_le {t : Table} {lo hi : Int}
    (h : year_bounds t = some (lo, hi)) {r : Row} (hr : r ∈ t)
    (hpos : 0 < r.title_year) : lo ≤ r.title_year ∧ r.title_year ≤ hi := by
  obtain ⟨hmin, hmax⟩ := year_bounds_eq_some h
  have hmem : r.title_year ∈
      (t.map Row.title_year).filter (fun y => decide (0 < y)) := by
    rw [List.mem_filter]
    exact ⟨List.mem_map_of_mem Row.title_year hr, by simpa using hpos⟩
  constructor
  · exact (List.le_min?_iff (fun a b c => le_min_iff) hmin).mp le_rfl _ hmem
  · exact (List.max?_le_iff (fun a b c => max_le_iff) hmax).mp le_rfl _ hmem

/-- A successful genre step only removes rows. -/
theorem genreStep_subset {sel : List String} {t u : Table}
    (h : genreStep sel t = .ok u) : ∀ x ∈ u, x ∈ t := by
  unfold genreStep at h
  cases hAll : sel.contains "All" with
  | true =>
    rw [hAll] at h
    cases h
    exact fun x hx => hx
  | false =>
    rw [hAll] at h
    cases hlit : sel.all isLiteralStr with
    | true =>
      rw [hlit] at h
      cases h
      exact fun x hx => (List.mem_filter.mp hx).1
    | false =>
      rw [hlit] at h
      exact Except.noConfusion h

/-- A successful actor step only removes rows. -/
theorem actorStep_subset {sel : List String} {t u : Table}
    (h : actorStep sel t = .ok u) : ∀ x ∈ u, x ∈ t := by
  unfold actorStep at h
  cases hAll : sel.contains "All" with
  | true =>
    rw [hAll] at h
    cases h
    exact fun x hx => hx
  | false =>
    rw [hAll] at h
    cases h
    exact fun x hx => (List.mem_filter.mp hx).1

/-- A successful title step only removes rows. -/
theorem titleStep_subset {q : String} {t u : Table}
    (h : titleStep q t = .ok u) : ∀ x ∈ u, x ∈ t := by
  unfold titleStep at h
  cases hq : q == "" with
  | true =>
    rw [hq] at h
    cases h
    exact fun x hx => hx
  | false =>
    rw [hq] at h
    cases hlit : isLiteralStr q with
    | true =>
      rw [hlit] at h
      cases h
      exact fun x hx => (List.mem_filter.mp hx).1
    | false =>
      rw [hlit] at h
      exact Except.noConfusion h

/-- Re-running a successful genre step on any list of its survivors keeps
them all. -/
theorem genreStep_restep {sel : List String} {t u r : Table}
    (h : genreStep sel t = .ok u) (hsub : ∀ x ∈ r, x ∈ u) :
    genreStep sel r = .ok r := by
  unfold genreStep at h ⊢
  cases hAll : sel.contains "All" with
  | true => rfl
  | false =>
    rw [hAll] at h
    cases hlit : sel.all isLiteralStr with
    | true =>
      rw [hlit] at h
      cases h
      show Except.ok (r.filter (genrePred sel)) = Except.ok r
      congr 1
      rw [List.filter_eq_self]
      intro x hx
      exact (List.mem_filter.mp (hsub x hx)).2
    | false =>
      rw [hlit] at h
      exact Except.noConfusion h

/-- Re-running a successful actor step on any list of its survivors keeps
them all. -/
theorem actorStep_restep {sel : List String} {t u r : Table}
    (h : actorStep sel t = .ok u) (hsub : ∀ x ∈ r, x ∈ u) :
    actorStep sel r = .ok r := by
  unfold actorStep at h ⊢
  cases hAll : sel.contains "All" with
  | true => rfl
  | false =>
    rw [hAll] at h
    cases h
    show Except.ok (r.filter (actorPred sel)) = Except.ok r
    congr 1
    rw [List.filter_eq_self]
    intro x hx
    exact (List.mem_filter.mp (hsub x hx)).2

/-- Re-running a successful title step on any list of its survivors keeps
them all. -/
theorem titleStep_restep {q : String} {t u r : Table}
    (h : titleStep q t = .ok u) (hsub : ∀ x ∈ r, x ∈ u) :
    titleStep q r = .ok r := by
  unfold titleStep at h ⊢
  cases hq : q == "" with
  | true => rfl
  | false =>
    rw [hq] at h
    cases hlit : isLiteralStr q with
    | true =>
      rw [hlit] at h
      cases h
      show Except.ok (r.filter (titlePred q)) = Except.ok r
      congr 1
      rw [List.filter_eq_self]
      intro x hx
      exact (List.mem_filter.mp (hsub x hx)).2
    | false =>
      rw [hlit] at h
      exact Except.noConfusion h

/-- Inversion of a successful pipeline run into its three fallible steps
applied after the year filter. -/
theorem applyFilters_ok_inv {t : Table} {s : FilterState} {r : Table}
    (h : applyFilters t s = .ok r) :
    ∃ t2 t3, genreStep s.selected_genres
        (t.filter (yearPred s.yearLo s.yearHi)) = .ok t2 ∧
      actorStep s.selected_actors t2 = .ok t3 ∧
      titleStep s.search_query t3 = .ok r := by
  unfold applyFilters yearStep at h
  have h2 : (match genreStep s.selected_genres
      (t.filter (yearPred s.yearLo s.yearHi)) with
    | Except.error e => (Except.error e : Except FilterErr Table)
    | Except.ok t2 =>
      match actorStep s.selected_actors t2 with
      | Except.error e => Except.error e
      | Except.ok t3 => titleStep s.search_query t3) = Except.ok r := h
  clear h
  cases hg : genreStep s.selected_genres
      (t.filter (yearPred s.yearLo s.yearHi)) with
  | error e =>
    rw [hg] at h2
    exact Except.noConfusion h2
  | ok t2 =>
    rw [hg] at h2
    have h3 : (match actorStep s.selected_actors t2 with
      | Except.error e => (Except.error e : Except FilterErr Table)
      | Except.ok t3 => titleStep s.search_query t3) = Except.ok r := h2
    clear h2
    cases ha : actorStep s.selected_actors t2 with
    | error e =>
      rw [ha] at h3
      exact Except.noConfusion h3
    | ok t3 =>
      rw [ha] at h3
      exact ⟨t2, t3, rfl, ha, h3⟩

/-- A `List.contains` hit is a membership. -/
theorem contains_true_mem {l : List String} {a : String}
    (h : l.contains a = true) : a ∈ l := by
  obtain ⟨b, hb, hbeq⟩ := List.contains_iff_exists_mem_beq.mp h
  rw [beq_iff_eq] at hbeq
  rw [hbeq]
  exact hb

/-! ### Claim theorems -/

/-- C4: if evaluating any filter predicate raises a data error, the result
delivered to the caller is the unfiltered input table (fail-open), not an
empty table and not a partially filtered one (app.py lines 131-133:
`except` assigns `filtered_data = df.copy()`). -/
theorem filter_fail_open (t : Table) (s : FilterState) (e : FilterErr)
    (h : applyFilters t s = .error e) : filtered_data t s = t := by
  unfold filtered_data
  rw [h]

/-- Witness for C4: the genre pattern `'('` is an invalid regular
expression; the delivered table is the full input. -/
theorem filter_fail_open_witness :
    filtered_data [sAction, sZero] ⟨1900, 2020, ["("], ["All"], ""⟩ =
      [sAction, sZero] :=
  filter_fail_open [sAction, sZero] ⟨1900, 2020, ["("], ["All"], ""⟩
    .invalidPattern (by decide)

/-- C10: the slider-bound derivation succeeds exactly when some row has a
positive `title_year`; the derived bounds then satisfy `0 < lo ≤ hi`, and
when no such row exists the derivation raises (`int(NaN)`) instead of
degrading to a default range. -/
theorem year_bounds_wellDefined (t : Table) :
    ((∃ r ∈ t, 0 < r.title_year) →
      ∃ lo hi, year_bounds t = some (lo, hi) ∧ 0 < lo ∧ lo ≤ hi) ∧
    (year_bounds t = none ↔ ∀ r ∈ t, r.title_year ≤ 0) := by
  have hposmem : ∀ y : Int,
      y ∈ (t.map Row.title_year).filter (fun y => decide (0 < y)) ↔
        (∃ r ∈ t, r.title_year = y) ∧ 0 < y := by
    intro y
    rw [List.mem_filter, List.mem_map]
    simp
  constructor
  · rintro ⟨r, hr, hpos⟩
    have hne : (t.map Row.title_year).filter (fun y => decide (0 < y)) ≠ [] := by
      intro hnil
      have : r.title_year ∈ (t.map Row.title_year).filter
          (fun y => decide (0 < y)) := (hposmem _).mpr ⟨⟨r, hr, rfl⟩, hpos⟩
      rw [hnil] at this
      exact absurd this (List.not_mem_nil _)
    cases hmin : ((t.map Row.title_year).filter (fun y => decide (0 < y))).min? with
    | none => exact absurd (List.min?_eq_none_iff.mp hmin) hne
    | some lo =>
      cases hmax : ((t.map Row.title_year).filter (fun y => decide (0 < y))).max? with
      | none => exact absurd (List.max?_eq_none_iff.mp hmax) hne
      | some hi =>
        refine ⟨lo, hi, ?_, ?_, ?_⟩
        · unfold year_bounds
          rw [hmin, hmax]
        · have : lo ∈ (t.map Row.title_year).filter (fun y => decide (0 < y)) :=
            List.min?_mem (fun a b => min_choice a b) hmin
          exact ((hposmem lo).mp this).2
        · have hmem : hi ∈ (t.map Row.title_year).filter
              (fun y => decide (0 < y)) :=
            List.max?_mem (fun a b => max_choice a b) hmax
          exact (List.le_min?_iff (fun a b c => le_min_iff) hmin).mp le_rfl _ hmem
  · constructor
    · intro hnone r hr
      by_contra hgt
      push_neg at hgt
      have hmem : r.title_year ∈ (t.map Row.title_year).filter
          (fun y => decide (0 < y)) := (hposmem _).mpr ⟨⟨r, hr, rfl⟩, hgt⟩
      have hne : (t.map Row.title_year).filter (fun y => decide (0 < y)) ≠ [] := by
        intro hnil
        rw [hnil] at hmem
        exact absurd hmem (List.not_mem_nil _)
      cases hmin : ((t.map Row.title_year).filter (fun y => decide (0 < y))).min? with
      | none => exact absurd (List.min?_eq_none_iff.mp hmin) hne
      | some lo =>
        cases hmax : ((t.map Row.title_year).filter (fun y => decide (0 < y))).max? with
        | none => exact absurd (List.max?_eq_none_iff.mp hmax) hne
        | some hi =>
          unfold year_bounds at hnone
          rw [hmin, hmax] at hnone
          simp at hnone
    · intro hall
      have hnil : (t.map Row.title_year).filter (fun y => decide (0 < y)) = [] := by
        rw [List.filter_eq_nil_iff]
        intro y hy
        rw [List.mem_map] at hy
        obtain ⟨r, hr, rfl⟩ := hy
        simpa using not_lt.mpr (hall r hr)
      unfold year_bounds
      rw [hnil]
      simp

/-- Witness for C10: a table with a 1999 row yields defined bounds with
`0 < lo ≤ hi`. -/
theorem year_bounds_wellDefined_witness :
    ∃ lo hi, year_bounds [sAction, sZero] = some (lo, hi) ∧ 0 < lo ∧ lo ≤ hi :=
  (year_bounds_wellDefined [sAction, sZero]).1 ⟨sAction, by decide, by decide⟩

/-- Counterexample to C1 as stated: on a table holding a 1999 row and a
sentinel-year row, the derived full range is `[1999, 1999]`, and filtering
with it drops the sentinel-year row, so the result is not the input. -/
theorem full_range_identity_cex :
    year_bounds [sAction, sZero] = some (1999, 1999) ∧
    filtered_data [sAction, sZero] (rangeOnlyState 1999 1999) ≠
      [sAction, sZero] := by decide

/-- C1 (amended): on a table all of whose rows have a positive
`title_year`, filtering with the derived full year range, genre and actor
selections `['All']`, and an empty search string returns the table
unchanged. -/
theorem full_range_identity (t : Table) (lo hi : Int)
    (hpos : ∀ r ∈ t, 0 < r.title_year)
    (hb : year_bounds t = some (lo, hi)) :
    filtered_data t (rangeOnlyState lo hi) = t := by
  rw [filtered_rangeOnly]
  rw [List.filter_eq_self]
  intro r hr
  obtain ⟨h1, h2⟩ := year_bounds_le hb hr (hpos r hr)
  simp [yearPred, h1, h2]

/-- Witness for C1 (amended): a single positive-year row is returned
unchanged under the derived full range. -/
theorem full_range_identity_witness :
    filtered_data [sAction] (rangeOnlyState 1999 1999) = [sAction] :=
  full_range_identity [sAction] 1999 1999 (by decide) (by decide)

/-- C5: a row with `title_year = 0` appears in the filtered result (with
the other predicates at their disabled defaults, as the claim fixes only
the year range) iff the inclusive range contains `0`. -/
theorem year_zero_iff_range (t : Table) (r : Row) (lo hi : Int)
    (hr : r ∈ t) (hy : r.title_year = 0) :
    r ∈ filtered_data t (rangeOnlyState lo hi) ↔ (lo ≤ 0 ∧ 0 ≤ hi) := by
  rw [filtered_rangeOnly, List.mem_filter]
  simp [yearPred, hy, hr]

/-- Witness for C5: with range `[-1, 1]` the sentinel-year row survives
the filter. -/
theorem year_zero_iff_range_witness :
    sZero ∈ filtered_data [sAction, sZero] (rangeOnlyState (-1) 1) :=
  (year_zero_iff_range [sAction, sZero] sZero (-1) 1 (by decide)
    (by decide)).mpr (by decide)

/-- C6: the delivered filter result is idempotent — running the pipeline
again with the same state returns the same table. -/
theorem apply_idempotent (t : Table) (s : FilterState) :
    filtered_data (filtered_data t s) s = filtered_data t s := by
  cases happ : applyFilters t s with
  | error e =>
    have h1 : filtered_data t s = t := by
      unfold filtered_data
      rw [happ]
    rw [h1]
    exact h1
  | ok r =>
    have h1 : filtered_data t s = r := by
      unfold filtered_data
      rw [happ]
    rw [h1]
    obtain ⟨t2, t3, hg, ha, ht⟩ := applyFilters_ok_inv happ
    have hsub3 : ∀ x ∈ r, x ∈ t3 := titleStep_subset ht
    have hsub2 : ∀ x ∈ r, x ∈ t2 := fun x hx => actorStep_subset ha x (hsub3 x hx)
    have hsub1 : ∀ x ∈ r, x ∈ t.filter (yearPred s.yearLo s.yearHi) :=
      fun x hx => genreStep_subset hg x (hsub2 x hx)
    have hyear : r.filter (yearPred s.yearLo s.yearHi) = r := by
      rw [List.filter_eq_self]
      intro x hx
      exact (List.mem_filter.mp (hsub1 x hx)).2
    have hg2 : genreStep s.selected_genres r = .ok r := genreStep_restep hg hsub2
    have ha2 : actorStep s.selected_actors r = .ok r := actorStep_restep ha hsub3
    have ht2 : titleStep s.search_query r = .ok r :=
      titleStep_restep ht (fun x hx => hx)
    have happ2 : applyFilters r s = .ok r := by
      unfold applyFilters yearStep
      rw [hyear]
      show (match genreStep s.selected_genres r with
        | Except.error e => (Except.error e : Except FilterErr Table)
        | Except.ok t2 =>
          match actorStep s.selected_actors t2 with
          | Except.error e => Except.error e
          | Except.ok t3 => titleStep s.search_query t3) = Except.ok r
      rw [hg2]
      show (match actorStep s.selected_actors r with
        | Except.error e => (Except.error e : Except FilterErr Table)
        | Except.ok t3 => titleStep s.search_query t3) = Except.ok r
      rw [ha2]
      exact ht2
    unfold filtered_data
    rw [happ2]

/-- Counterexample to C2 as stated: with the empty genre selection (which
does not contain `"All"`), the joined pattern is the empty string, which
matches every row, while the claim's OR-of-substring reading keeps no row
(there is no selected genre to match). -/
theorem genre_filter_cex :
    genreStep [] [sAction] = .ok [sAction] ∧
    genreKeepSpec [] [sAction] = [] := by decide

/-- C2 (amended): for every selection without `"All"` whose names are
ASCII literal text for the regex engine (no metacharacter, in particular
no `'|'`), over a table of ASCII genre strings, the genre step succeeds
and keeps exactly the rows whose genre string contains some selected name
case-insensitively — except that the empty selection keeps every row,
because the empty joined pattern matches everything.  The ASCII
hypotheses confine the statement to the fragment where `ciContains`
coincides with pandas' Unicode `IGNORECASE` matching. -/
theorem genre_filter_amended (t : Table) (sel : List String)
    (hAll : sel.contains "All" = false)
    (hlit : sel.all isLiteralStr = true)
    (_hascii : sel.all isAsciiStr = true)
    (_hasciiT : ∀ r ∈ t, isAsciiStr r.genres = true) :
    genreStep sel t = .ok (t.filter (genrePred sel)) ∧
    ∀ r : Row, r ∈ t.filter (genrePred sel) ↔
      r ∈ t ∧ (sel = [] ∨ ∃ g ∈ sel, ciContains r.genres g = true) := by
  constructor
  · unfold genreStep
    rw [hAll, hlit]
  · intro r
    rw [List.mem_filter]
    unfold genrePred
    constructor
    · rintro ⟨hrt, hp⟩
      refine ⟨hrt, ?_⟩
      rcases Bool.or_eq_true_iff.mp hp with he | ha
      · exact Or.inl (List.isEmpty_iff.mp he)
      · obtain ⟨g, hg, hc⟩ := List.any_eq_true.mp ha
        exact Or.inr ⟨g, hg, hc⟩
    · rintro ⟨hrt, he | ⟨g, hg, hc⟩⟩
      · refine ⟨hrt, ?_⟩
        rw [he]
        rfl
      · refine ⟨hrt, Bool.or_eq_true_iff.mpr (Or.inr ?_)⟩
        exact List.any_eq_true.mpr ⟨g, hg, hc⟩

/-- Witness for C2 (amended): selecting `["action"]` keeps the action row
by case-insensitive substring match. -/
theorem genre_filter_amended_witness :
    genreStep ["action"] [sAction, sZero] =
      .ok ([sAction, sZero].filter (genrePred ["action"])) ∧
    (sAction ∈ [sAction, sZero].filter (genrePred ["action"]) ↔
      sAction ∈ [sAction, sZero] ∧ (["action"] = ([] : List String) ∨
        ∃ g ∈ ["action"], ciContains sAction.genres g = true)) :=
  ⟨(genre_filter_amended [sAction, sZero] ["action"] (by decide) (by decide)
      (by decide) (by decide)).1,
    (genre_filter_amended [sAction, sZero] ["action"] (by decide) (by decide)
      (by decide) (by decide)).2 sAction⟩

/-- Counterexample to C3 as stated: the source additionally requires
`gross > 0` (app.py line 145), so on a table with a `gross = 0` row of
valid budget the code's median (200%) differs from the claim's
budget-only median (50%). -/
theorem roi_median_cex :
    roi [sGrossZero, sGrossPos] = some 200 ∧
    roiSpecClaim [sGrossZero, sGrossPos] = some 50 ∧
    roi [sGrossZero, sGrossPos] ≠ roiSpecClaim [sGrossZero, sGrossPos] := by
  decide

/-- C3 (amended): `roi` is the median of `(gross - budget) / budget` as a
percentage over exactly the rows with `budget >= 1000` and `gross > 0`;
it is the no-data sentinel iff no row qualifies, and in particular over a
table whose rows all have `budget = 0`. -/
theorem roi_median_amended (t : Table) :
    ((∀ r ∈ t, r.budget = 0) → roi t = none) ∧
    (roi t = none ↔ ∀ r ∈ t, ¬(1000 ≤ r.budget ∧ 0 < r.gross)) ∧
    (∀ q, roi t = some q →
      q = median ((t.filter roiValid).map
          (fun r => (r.gross - r.budget) / r.budget)) * 100) := by
  have hvalid : ∀ r : Row, roiValid r = true ↔ (1000 ≤ r.budget ∧ 0 < r.gross) := by
    intro r
    unfold roiValid
    rw [Bool.and_eq_true]
    simp
  have hnone : roi t = none ↔ ∀ r ∈ t, ¬(1000 ≤ r.budget ∧ 0 < r.gross) := by
    unfold roi
    by_cases hemp : (t.filter roiValid).isEmpty = true
    · rw [if_pos hemp]
      simp only [true_iff]
      intro r hr hcl
      have : t.filter roiValid = [] := List.isEmpty_iff.mp hemp
      have hmem : r ∈ t.filter roiValid :=
        List.mem_filter.mpr ⟨hr, (hvalid r).mpr hcl⟩
      rw [this] at hmem
      exact absurd hmem (List.not_mem_nil r)
    · rw [if_neg hemp]
      simp only [reduceCtorEq, false_iff]
      intro hall
      apply hemp
      rw [List.isEmpty_iff, List.filter_eq_nil_iff]
      intro r hr hv
      exact hall r hr ((hvalid r).mp hv)
  refine ⟨?_, hnone, ?_⟩
  · intro hzero
    rw [hnone]
    intro r hr hcl
    rw [hzero r hr] at hcl
    exact absurd hcl.1 (by norm_num)
  · intro q hq
    unfold roi at hq
    by_cases hemp : (t.filter roiValid).isEmpty = true
    · rw [if_pos hemp] at hq
      exact Option.noConfusion hq
    · rw [if_neg hemp] at hq
      exact (Option.some.inj hq).symm

/-- Witness for C3 (amended): a table whose only row has `budget = 0`
yields the no-data sentinel. -/
theorem roi_median_amended_witness : roi [sBudgetZero] = none :=
  (roi_median_amended [sBudgetZero]).1 (by decide)

/-- C9: after a successful load every filled column is non-null — missing
genres become `"Unknown"`, missing years and scores become `0` — and over
a non-empty loaded table the mean score is a defined number, with missing
scores counted as `0`. -/
theorem load_mean_score (raw : List RawRow) (h : raw ≠ []) :
    (load_data raw).map Row.imdb_score =
      raw.map (fun r => r.imdb_score.getD 0) ∧
    (load_data raw).map Row.genres =
      raw.map (fun r => r.genres.getD "Unknown") ∧
    (load_data raw).map Row.title_year =
      raw.map (fun r => r.title_year.getD 0) ∧
    avg_score (load_data raw) =
      some ((raw.map (fun r => r.imdb_score.getD 0)).sum / raw.length) := by
  have hscore : (load_data raw).map Row.imdb_score =
      raw.map (fun r => r.imdb_score.getD 0) := by
    unfold load_data
    rw [List.map_map]
    rfl
  refine ⟨hscore, ?_, ?_, ?_⟩
  · unfold load_data
    rw [List.map_map]
    rfl
  · unfold load_data
    rw [List.map_map]
    rfl
  · have hne : ¬((load_data raw).isEmpty = true) := by
      intro hemp
      apply h
      have : raw.map fillRow = [] := List.isEmpty_iff.mp hemp
      exact List.map_eq_nil_iff.mp this
    unfold avg_score
    rw [if_neg hne]
    unfold meanQ
    rw [hscore, List.length_map]

/-- Witness for C9: loading one all-missing row and one full row yields a
defined mean, counting the missing score as `0`. -/
theorem load_mean_score_witness :
    avg_score (load_data [sRawEmpty, sRawFull]) =
      some ((([sRawEmpty, sRawFull].map
        (fun r => r.imdb_score.getD 0)).sum / ([sRawEmpty, sRawFull].length))) :=
  (load_mean_score [sRawEmpty, sRawFull] (by decide)).2.2.2

/-- Counterexample to C8 as stated: the source keeps only groups with
`title_year > 0` (app.py line 211), excluding negative years as well as
the `0` sentinel, so a table with a `-1` year row yields no entry for its
distinct non-zero year. -/
theorem yearly_trend_cex :
    yearly_data [sNegYear] = [] ∧
    (-1 : Int) ∈ ([sNegYear] : Table).map Row.title_year ∧
    (-1 : Int) ≠ 0 := by decide

/-- C8 (amended): `yearly_data` has one entry per distinct positive
`title_year` (the sentinel `0` and any non-positive years are excluded),
carrying the mean budget and mean gross of that year's rows, in strictly
ascending year order. -/
theorem yearly_trend_amended (t : Table) :
    ((yearly_data t).map Prod.fst).Pairwise (fun a b => a < b) ∧
    (∀ y : Int, y ∈ (yearly_data t).map Prod.fst ↔
      (0 < y ∧ y ∈ t.map Row.title_year)) ∧
    (∀ e ∈ yearly_data t,
      e.2.1 = meanQ ((rowsOfYear t e.1).map Row.budget) ∧
      e.2.2 = meanQ ((rowsOfYear t e.1).map Row.gross)) := by
  have hfst : (yearly_data t).map Prod.fst =
      (((t.map Row.title_year).dedup).insertionSort (fun a b => a ≤ b)).filter
        (fun y => decide (0 < y)) := by
    unfold yearly_data
    rw [List.filter_map, List.map_map]
    rw [show (Prod.fst ∘ yearEntry t) = id from rfl, List.map_id]
    rfl
  have hsorted : (((t.map Row.title_year).dedup).insertionSort
      (fun a b => a ≤ b)).Pairwise (fun a b : Int => a ≤ b) :=
    List.sorted_insertionSort _ _
  have hnodup : (((t.map Row.title_year).dedup).insertionSort
      (fun a b => a ≤ b)).Nodup :=
    (List.perm_insertionSort _ _).nodup_iff.mpr (List.nodup_dedup _)
  refine ⟨?_, ?_, ?_⟩
  · rw [hfst]
    exact ((hsorted.and hnodup).imp
      (fun h => lt_of_le_of_ne h.1 h.2)).filter _
  · intro y
    rw [hfst, List.mem_filter, (List.perm_insertionSort _ _).mem_iff,
      List.mem_dedup]
    simp only [decide_eq_true_eq]
    exact and_comm
  · intro e he
    unfold yearly_data at he
    rw [List.mem_filter] at he
    obtain ⟨hmem, -⟩ := he
    rw [List.mem_map] at hmem
    obtain ⟨y, -, rfl⟩ := hmem
    exact ⟨rfl, rfl⟩

/-- Witness for C8 (amended): the 1999 row produces a 1999 entry. -/
theorem yearly_trend_amended_witness :
    (1999 : Int) ∈ (yearly_data [sAction, sZero]).map Prod.fst :=
  ((yearly_trend_amended [sAction, sZero]).2.1 1999).mpr (by decide)

/-- C7: `genre_data` covers at most ten distinct genre names, every
returned observation's token is one of the retained top names, and the
retained names are frequency-maximal: any token strictly more frequent
than a retained one is itself retained. -/
theorem genre_distribution_top10 (t : Table) :
    ((genre_data t).map Prod.fst).dedup.length ≤ 10 ∧
    (∀ p ∈ genre_data t, p.1 ∈ top_genres t) ∧
    (∀ g ∈ top_genres t, ∀ g' ∈ firstOccs (tokenList t),
      (tokenList t).count g < (tokenList t).count g' →
        g' ∈ top_genres t) := by
  have hmem_top : ∀ p ∈ genre_data t, p.1 ∈ top_genres t := by
    intro p hp
    unfold genre_data at hp
    rw [List.mem_filter] at hp
    exact contains_true_mem hp.2
  have hlen : (top_genres t).length ≤ 10 := by
    unfold top_genres
    exact List.length_take_le _ _
  refine ⟨?_, hmem_top, ?_⟩
  · have hnd : ((genre_data t).map Prod.fst).dedup.Nodup := List.nodup_dedup _
    have hsub : ∀ x ∈ ((genre_data t).map Prod.fst).dedup, x ∈ top_genres t := by
      intro x hx
      rw [List.mem_dedup, List.mem_map] at hx
      obtain ⟨p, hp, rfl⟩ := hx
      exact hmem_top p hp
    exact le_trans (hnd.subperm hsub).length_le hlen
  · intro g hg g' hg' hcount
    have hsorted : ((firstOccs (tokenList t)).insertionSort
        (fun a b => (tokenList t).count b ≤ (tokenList t).count a)).Pairwise
        (fun a b => (tokenList t).count b ≤ (tokenList t).count a) := by
      haveI : IsTotal String
          (fun a b => (tokenList t).count b ≤ (tokenList t).count a) :=
        ⟨fun a b => le_total _ _⟩
      haveI : IsTrans String
          (fun a b => (tokenList t).count b ≤ (tokenList t).count a) :=
        ⟨fun a b c hab hbc => le_trans hbc hab⟩
      exact List.sorted_insertionSort _ _
    have hg'srt : g' ∈ (firstOccs (tokenList t)).insertionSort
        (fun a b => (tokenList t).count b ≤ (tokenList t).count a) :=
      (List.perm_insertionSort _ _).mem_iff.mpr hg'
    by_contra hg'top
    have hsplit : ((firstOccs (tokenList t)).insertionSort
          (fun a b => (tokenList t).count b ≤ (tokenList t).count a)).take 10 ++
        ((firstOccs (tokenList t)).insertionSort
          (fun a b => (tokenList t).count b ≤ (tokenList t).count a)).drop 10 =
        (firstOccs (tokenList t)).insertionSort
          (fun a b => (tokenList t).count b ≤ (tokenList t).count a) :=
      List.take_append_drop 10 _
    rw [← hsplit] at hg'srt hsorted
    have hrel := (List.pairwise_append.mp hsorted).2.2
    rcases List.mem_append.mp hg'srt with h1 | h2
    · exact hg'top h1
    · exact absurd hcount (not_lt.mpr (hrel g hg g' h2))

/-- Witness for C7: with two Drama rows and one Action token, the
less-frequent retained token `"Action"` forces the more-frequent `"Drama"`
to be retained as well, and the Action observation's token is retained. -/
theorem genre_distribution_top10_witness :
    ((genre_data [sAction, sGrossPos]).map Prod.fst).dedup.length ≤ 10 ∧
    ("Action", (20 : ℚ)).1 ∈ top_genres [sAction, sGrossPos] ∧
    "Drama" ∈ top_genres [sAction, sGrossPos] :=
  ⟨(genre_distribution_top10 [sAction, sGrossPos]).1,
    (genre_distribution_top10 [sAction, sGrossPos]).2.1 ("Action", 20)
      (by decide),
    (genre_distribution_top10 [sAction, sGrossPos]).2.2 "Action" (by decide)
      "Drama" (by decide) (by decide)⟩

end IMDB
